import Mathlib

/-!
Shallow embedding of the typebot.io authentication glue layer:
the next-auth store adapter (`customAdapter`), the sign-in decision
procedure (`signIn` callback), the auth HTTP entry handler, and the
user-profile PATCH endpoint (`/api/users/[userId]`).

Stateful store operations are modelled by explicit state passing over a
`DB` record of entity lists; fallible operations return `Except` or
`Option`; JavaScript truthiness of optional strings is made explicit.
-/

set_option autoImplicit false
set_option maxRecDepth 10000

namespace Typebot

/-- Telemetry events pushed through `trackEvents` in the sources. -/
inductive TelemetryEvent where
  | workspaceCreated (workspaceId userId : String)
  | userCreated (userId : String)
  | userLoggedIn (userId : String)
  | userLoggedOut (userId : String)
  | userUpdated (userId : String)
  deriving DecidableEq, Repr

/-- `WorkspaceRole` from the prisma enum. -/
inductive WorkspaceRole where
  | ADMIN
  | MEMBER
  | GUEST
  deriving DecidableEq, Repr

/-- A `VerificationToken` row: composite key (identifier, token) plus expiry.
Dates are modelled as natural numbers. -/
structure VerificationToken where
  identifier : String
  token : String
  expires : Nat
  deriving DecidableEq, Repr

/-- A user row as shaped by the adapter (`p.user.create` in `createUser`). -/
structure DbUser where
  id : String
  email : String
  name : Option String
  onboardingCategories : List String
  deriving DecidableEq, Repr

/-- A workspace row (`newWorkspaceData` plus its generated id). -/
structure Workspace where
  id : String
  name : String
  plan : String
  deriving DecidableEq, Repr

/-- A `MemberInWorkspace` row: membership of a user in a workspace with a role. -/
structure MemberInWorkspace where
  userId : String
  workspaceId : String
  role : WorkspaceRole
  deriving DecidableEq, Repr

/-- A pending direct (typebot collaboration) invitation, keyed by invitee email. -/
structure Invitation where
  email : String
  typebotId : String
  collabType : String
  deriving DecidableEq, Repr, BEq

/-- A pending workspace invitation, keyed by invitee email. -/
structure WorkspaceInvitation where
  email : String
  workspaceId : String
  role : WorkspaceRole
  deriving DecidableEq, Repr, BEq

/-- A collaboration row, the converted form of a direct invitation. -/
structure Collaboration where
  userId : String
  typebotId : String
  collabType : String
  deriving DecidableEq, Repr

/-- The slice of the relational store touched by the embedded operations. -/
structure DB where
  users : List DbUser
  invitations : List Invitation
  workspaceInvitations : List WorkspaceInvitation
  workspaces : List Workspace
  memberships : List MemberInWorkspace
  collaborations : List Collaboration
  deriving DecidableEq, Repr

/-- The environment flags consulted by the embedded code paths.
`ADMIN_EMAIL` and `GITLAB_REQUIRED_GROUPS` are optional lists, mirroring
environment variables that may be absent (`undefined` in JavaScript). -/
structure Env where
  DISABLE_SIGNUP : Bool
  ADMIN_EMAIL : Option (List String)
  REJECT_DISPOSABLE_EMAILS : Bool
  GITLAB_REQUIRED_GROUPS : Option (List String)
  deriving DecidableEq, Repr

/-! ### Verification tokens (`useVerificationToken`) -/

/-- The composite-key match used by `p.verificationToken.delete({where:
{identifier_token}})`. -/
def vtMatches (identifier token : String) (x : VerificationToken) : Bool :=
  x.identifier = identifier && x.token = token

/-- `useVerificationToken`: deletes the row with the given composite key and
returns it; when the store reports no matching row (prisma error `P2025`),
the source catches the error and returns `null`, modelled as `none` with the
token table unchanged. -/
def useVerificationToken (tokens : List VerificationToken)
    (identifier token : String) :
    Option VerificationToken × List VerificationToken :=
  match tokens.find? (vtMatches identifier token) with
  | some v => (some v, tokens.filter (fun x => !(vtMatches identifier token x)))
  | none => (none, tokens)

/-! ### Invitation resolver and new-user helpers -/

/-- Modelled from the spec: `getNewUserInvitations` is imported by the sources
but its definition is not among them. Per the spec (section 4.2) it is a pure
lookup: given an email it returns the pending direct invitations and the
pending workspace invitations for that email, with no mutation. -/
def getNewUserInvitations (db : DB) (email : String) :
    List Invitation × List WorkspaceInvitation :=
  (db.invitations.filter (fun i => i.email = email),
   db.workspaceInvitations.filter (fun i => i.email = email))

/-- Modelled from the spec: `convertInvitationsToCollaborations` is imported by
the sources but its definition is not among them. Per the spec (sections 3 and
4.1) each resolved direct invitation is converted into a collaboration for the
new user and the invitation is consumed (deleted). -/
def convertInvitationsToCollaborations (db : DB) (userId : String)
    (invs : List Invitation) : DB :=
  { db with
    collaborations :=
      db.collaborations ++ invs.map (fun i => ⟨userId, i.typebotId, i.collabType⟩),
    invitations := db.invitations.filter (fun i => !(invs.contains i)) }

/-- Modelled from the spec: `joinWorkspaces` is imported by the sources but its
definition is not among them. Per the spec (sections 3 and 8) each resolved
workspace invitation becomes a membership of the new user in the invited
workspace (one membership per invitation) and the invitation is consumed. -/
def joinWorkspaces (db : DB) (userId : String)
    (wInvs : List WorkspaceInvitation) : DB :=
  { db with
    memberships :=
      db.memberships ++ wInvs.map (fun i => ⟨userId, i.workspaceId, i.role⟩),
    workspaceInvitations :=
      db.workspaceInvitations.filter (fun i => !(wInvs.contains i)) }

/-- Modelled from the spec: `parseWorkspaceDefaultPlan` is imported by the
sources but its definition is not among them; the spec does not constrain the
chosen plan and no claim depends on it, so it is a fixed abstract plan name. -/
def parseWorkspaceDefaultPlan (_email : String) : String :=
  "DEFAULT"

/-- An apostrophe character as a string (used in the workspace name). -/
def apos : String :=
  String.singleton (Char.ofNat 39)

/-- The workspace name built in `createUser`: a truthy `data.name` gives the
name followed by an apostrophe and `s workspace`, otherwise `My workspace`
(an empty string is falsy). -/
def newWorkspaceName (name : Option String) : String :=
  match name with
  | some n => if n = "" then "My workspace" else n ++ apos ++ "s workspace"
  | none => "My workspace"

/-- `env.ADMIN_EMAIL?.every((email) => email !== user.email)` — the optional
chain: when `ADMIN_EMAIL` is absent the whole expression is `undefined`,
which is falsy, so the guard it feeds fails. -/
def adminEmailEveryNe (adminEmail : Option (List String)) (e : String) : Bool :=
  match adminEmail with
  | none => false
  | some l => l.all (fun a => a ≠ e)

/-! ### `customAdapter.createUser` -/

/-- The `user` argument passed to `createUser` by the authentication library:
an optional id, the forwarded email (empty string models a falsy email) and
an optional display name. -/
structure AdapterUserInput where
  id : Option String
  email : String
  name : Option String
  deriving DecidableEq, Repr

/-- The errors thrown by `createUser`: `Error("Provider did not forward email
but it is required")` and `Error("New users are forbidden")`. -/
inductive CreateUserError where
  | missingEmail
  | signupDisabled
  deriving DecidableEq, Repr

/-- The successful outcome of `createUser`: the created user row, the store
state after all side effects, and the telemetry events it tracked. -/
structure CreateUserOk where
  user : DbUser
  db : DB
  events : List TelemetryEvent
  deriving DecidableEq, Repr

/-- `customAdapter.createUser`. `genId` stands for `createId()` and
`genWorkspaceId` for the id the store assigns to the nested-created
workspace. Mirrors the source order: reject a falsy email; resolve
invitations; reject when signup is disabled, the admin allow-list check
passes and both invitation lists are empty; create the user with a nested
personal workspace exactly when there is no pending workspace invitation;
track `Workspace created` (only when one was created) then `User created`;
convert direct invitations; join invited workspaces. The webhook call is
best-effort and does not touch the store. -/
def createUser (env : Env) (genId genWorkspaceId : String) (db : DB)
    (data : AdapterUserInput) : Except CreateUserError CreateUserOk :=
  if data.email = "" then
    .error .missingEmail
  else
    let userId := data.id.getD genId
    let userEmail := data.email
    let resolved := getNewUserInvitations db userEmail
    let invitations := resolved.1
    let workspaceInvitations := resolved.2
    if env.DISABLE_SIGNUP && adminEmailEveryNe env.ADMIN_EMAIL userEmail
        && invitations.length = 0 && workspaceInvitations.length = 0 then
      .error .signupDisabled
    else
      let newWorkspace : Option Workspace :=
        if workspaceInvitations.length > 0 then none
        else some ⟨genWorkspaceId, newWorkspaceName data.name,
                   parseWorkspaceDefaultPlan userEmail⟩
      let newUser : DbUser :=
        { id := userId, email := userEmail, name := data.name,
          onboardingCategories := [] }
      let db1 : DB :=
        { db with
          users := db.users ++ [newUser],
          workspaces := db.workspaces ++
            (match newWorkspace with | some w => [w] | none => []),
          memberships := db.memberships ++
            (match newWorkspace with
             | some w => [⟨userId, w.id, WorkspaceRole.ADMIN⟩]
             | none => []) }
      let events : List TelemetryEvent :=
        (match newWorkspace with
         | some w => [.workspaceCreated w.id userId]
         | none => []) ++ [.userCreated userId]
      let db2 :=
        if invitations.length > 0 then
          convertInvitationsToCollaborations db1 userId invitations
        else db1
      let db3 :=
        if workspaceInvitations.length > 0 then
          joinWorkspaces db2 userId workspaceInvitations
        else db2
      .ok ⟨newUser, db3, events⟩

/-- The store state observed after a `createUser` call: a thrown error occurs
before any write, leaving the store unchanged. -/
def createUserDB (env : Env) (genId genWorkspaceId : String) (db : DB)
    (data : AdapterUserInput) : DB :=
  match createUser env genId genWorkspaceId db data with
  | .error _ => db
  | .ok r => r.db

/-- The admin allow-list membership as the spec words it: an email is on the
allow-list when the list is configured and contains it; with no configured
list no email is on it. Used to compare the claim wording with the guard the
source actually evaluates (`adminEmailEveryNe`). -/
def onAdminAllowList (adminEmail : Option (List String)) (e : String) : Bool :=
  match adminEmail with
  | none => false
  | some l => l.contains e

/-! ### Sign-in decision procedure (`signIn` callback) -/

/-- JavaScript truthiness of an optional string: absent, `undefined` and the
empty string are falsy. -/
def strTruthy : Option String → Bool
  | some s => s ≠ ""
  | none => false

/-- `user.email.split("@")[1]`: the part after the first `@`, absent when the
email contains no `@`. -/
def emailDomain (email : String) : Option String :=
  (email.splitOn "@").get? 1

/-- `!env.ADMIN_EMAIL || !env.ADMIN_EMAIL.includes(e)` — and the second guard
`!env.ADMIN_EMAIL?.includes(e)` evaluates identically: with no configured
list both are true, with a configured list both test non-membership. -/
def adminNotIncludes (adminEmail : Option (List String)) (e : String) : Bool :=
  match adminEmail with
  | none => true
  | some l => !(l.contains e)

/-- `getRequiredGroups`: for the `gitlab` provider the configured
`GITLAB_REQUIRED_GROUPS` (defaulting to the empty list), otherwise none. -/
def getRequiredGroups (env : Env) (provider : String) : List String :=
  if provider = "gitlab" then env.GITLAB_REQUIRED_GROUPS.getD [] else []

/-- `checkHasGroups`: some fetched user group is included (case-sensitive
string equality) in the required groups. -/
def checkHasGroups (userGroups requiredGroups : List String) : Bool :=
  userGroups.any (fun g => requiredGroups.contains g)

/-- The tag set by the HTTP entry handler when the rate limiter denied the
request. -/
inductive Restricted where
  | rateLimited
  deriving DecidableEq, Repr

/-- The `account` payload of the sign-in callback: only its provider matters
to the embedded logic. -/
structure SignInAccount where
  provider : String
  deriving DecidableEq, Repr

/-- The `user` payload of the sign-in callback: `createdAt` present models
`"createdAt" in user && isDefined(user.createdAt)` (the prior-creation
marker). -/
structure SignInUser where
  id : String
  email : Option String
  createdAt : Option Nat
  deriving DecidableEq, Repr

/-- The stage of `signIn` after the disposable-email and signup-disabled
gates: the group authorization check, then returning-user telemetry, then
allow. When a required-group list is configured the source returns the group
check result directly (no telemetry). -/
def signInAfterGates (env : Env) (userGroups : List String)
    (account : SignInAccount) (user : SignInUser) (isNewUser : Bool) :
    Except String (Bool × List TelemetryEvent) :=
  let requiredGroups := getRequiredGroups env account.provider
  if requiredGroups.length > 0 then
    .ok (checkHasGroups userGroups requiredGroups, [])
  else if !isNewUser then
    .ok (true, [.userLoggedIn user.id])
  else
    .ok (true, [])

/-- The `signIn` callback. `disposableDomains` is the fetched block-list and
`userGroups` the groups `getUserGroups` would return; both are consulted only
under the guards of the source. The result carries the decision together
with the telemetry events tracked on the way; thrown errors are the source
message strings (`rate-limited`, `sign-up-disabled`). -/
def signIn (env : Env) (db : DB) (disposableDomains : List String)
    (userGroups : List String) (restricted : Option Restricted)
    (account : Option SignInAccount) (user : SignInUser) :
    Except String (Bool × List TelemetryEvent) :=
  if restricted = some .rateLimited then
    .error "rate-limited"
  else
    match account with
    | none => .ok (false, [])
    | some account =>
      let isNewUser := user.createdAt.isNone
      let emailVal := user.email.getD ""
      let disposableDeny :=
        isNewUser && strTruthy user.email
          && adminNotIncludes env.ADMIN_EMAIL emailVal
          && env.REJECT_DISPOSABLE_EMAILS
          && (match emailDomain emailVal with
              | some d => disposableDomains.contains d
              | none => false)
      if disposableDeny then
        .ok (false, [])
      else if env.DISABLE_SIGNUP && isNewUser && strTruthy user.email
          && adminNotIncludes env.ADMIN_EMAIL emailVal then
        let resolved := getNewUserInvitations db emailVal
        if resolved.1.length = 0 && resolved.2.length = 0 then
          .error "sign-up-disabled"
        else
          signInAfterGates env userGroups account user isNewUser
      else
        signInAfterGates env userGroups account user isNewUser

/-! ### Auth HTTP entry handler -/

/-- JavaScript `url.startsWith(p)`: `p` is a prefix of the character
sequence of `url`. -/
def urlStartsWith (u p : String) : Bool :=
  p.data.isPrefixOf u.data

/-- The request fields the entry handler inspects. -/
structure AuthRequest where
  method : String
  url : Option String
  ip : Option String
  deriving DecidableEq, Repr

/-- What the entry handler does with a request. -/
inductive HandlerAction where
  | headOk
  | mockedSession
  | nextAuth (restricted : Option Restricted)
  deriving DecidableEq, Repr

/-- The auth entry `handler`: `HEAD` answers 200 immediately; in end-to-end
test mode `GET /api/auth/session` answers a mocked session; otherwise, when a
rate limiter is configured and the request is a `POST` on
`/api/auth/signin/email` from a known ip that exceeded the limit, the request
is tagged rate-limited; finally the authentication library is invoked with
the tag. `limitSuccess ip` is the limiter verdict for that ip. -/
def authHandler (e2eTest : Bool) (limiterConfigured : Bool)
    (limitSuccess : String → Bool) (req : AuthRequest) : HandlerAction :=
  if req.method = "HEAD" then
    .headOk
  else if req.method = "GET" && req.url = some "/api/auth/session" && e2eTest then
    .mockedSession
  else
    let restricted : Option Restricted :=
      if limiterConfigured
          && (match req.url with
              | some u => urlStartsWith u "/api/auth/signin/email"
              | none => false)
          && req.method = "POST" then
        match req.ip with
        | some ip => if !(limitSuccess ip) then some .rateLimited else none
        | none => none
      else
        none
    .nextAuth restricted

/-! ### Profile update endpoint (`PATCH /api/users/[userId]`) -/

/-- The stored user record as seen by the profile endpoint. JSON-valued
columns (`displayedInAppNotifications`, `groupTitlesAutoGeneration`) are
modelled as optional abstract string payloads. -/
structure UserRecord where
  id : String
  email : String
  name : Option String
  image : Option String
  company : Option String
  referral : Option String
  onboardingCategories : List String
  displayedInAppNotifications : Option String
  groupTitlesAutoGeneration : Option String
  deriving DecidableEq, Repr

/-- The parsed `Partial<User>` request body. Each field distinguishes absent
(`none`), explicit `null` (`some none`) and a value (`some (some v)`);
`onboardingCategories` is a non-nullable array column, so its body value is
absent or an array. -/
structure UserPatch where
  name : Option (Option String) := none
  image : Option (Option String) := none
  company : Option (Option String) := none
  referral : Option (Option String) := none
  onboardingCategories : Option (List String) := none
  displayedInAppNotifications : Option (Option String) := none
  groupTitlesAutoGeneration : Option (Option String) := none
  deriving DecidableEq, Repr

/-- `value ?? undefined`: an explicit `null` is coerced to `undefined`
(absent); everything else passes through. -/
def nullToUndefined {α : Type} : Option (Option α) → Option (Option α)
  | some none => none
  | d => d

/-- The store update semantics for one nullable column: an absent value keeps
the stored one, `null` clears it, a value replaces it. -/
def applyField {α : Type} (stored : Option α) (d : Option (Option α)) :
    Option α :=
  match d with
  | none => stored
  | some v => v

/-- The `prisma.user.update` data object built by the handler: the body is
spread as given, except that `displayedInAppNotifications` and
`groupTitlesAutoGeneration` first pass through `?? undefined`. -/
def applyPatch (stored : UserRecord) (data : UserPatch) : UserRecord :=
  { stored with
    name := applyField stored.name data.name,
    image := applyField stored.image data.image,
    company := applyField stored.company data.company,
    referral := applyField stored.referral data.referral,
    onboardingCategories :=
      data.onboardingCategories.getD stored.onboardingCategories,
    displayedInAppNotifications :=
      applyField stored.displayedInAppNotifications
        (nullToUndefined data.displayedInAppNotifications),
    groupTitlesAutoGeneration :=
      applyField stored.groupTitlesAutoGeneration
        (nullToUndefined data.groupTitlesAutoGeneration) }

/-- JavaScript truthiness of a body field holding a string: truthy exactly
when present, non-null and non-empty. -/
def jsTruthyStr : Option (Option String) → Bool
  | some (some s) => s ≠ ""
  | _ => false

/-- JavaScript truthiness of a body field holding an array: any array, even
empty, is truthy; absent is falsy. -/
def jsTruthyList : Option (List String) → Bool
  | some _ => true
  | none => false

/-- The condition under which the handler tracks a `User updated` event:
`data.onboardingCategories || data.referral || data.company || data.name`. -/
def userUpdatedCondition (data : UserPatch) : Bool :=
  jsTruthyList data.onboardingCategories || jsTruthyStr data.referral
    || jsTruthyStr data.company || jsTruthyStr data.name

/-- The responses of the profile endpoint. Modelled from the spec for the
helpers absent from the sources: `notAuthenticated` answers 401 and
`methodNotAllowed` answers 405. A successful PATCH answers the updated
record. -/
inductive UsersApiResponse where
  | notAuthenticated
  | methodNotAllowed
  | ok (typebots : UserRecord)
  deriving DecidableEq, Repr

/-- The `/api/users/[userId]` handler: require an authenticated caller
(`authUserId` is its id when present); on `PATCH`, update the stored record
with the parsed body and track one `User updated` event exactly when the
tracked-field condition is truthy; any other method is not allowed. -/
def userIdHandler (authUserId : Option String) (method : String)
    (stored : UserRecord) (data : UserPatch) :
    UsersApiResponse × List TelemetryEvent :=
  match authUserId with
  | none => (.notAuthenticated, [])
  | some uid =>
    if method = "PATCH" then
      let updated := applyPatch stored data
      let events : List TelemetryEvent :=
        if userUpdatedCondition data then [.userUpdated uid] else []
      (.ok updated, events)
    else
      (.methodNotAllowed, [])

/-! ### Theorems -/

/-- No row satisfying `p` survives filtering by the negation of `p`. -/
theorem find?_filter_not_eq_none {α : Type} (p : α → Bool) (l : List α) :
    (l.filter (fun x => !(p x))).find? p = none := by
  rw [List.find?_eq_none]
  intro x hx
  have h := (List.mem_filter.mp hx).2
  simp only [Bool.not_eq_true'] at h
  simp [h]

/-- C2: `useVerificationToken` fetches and deletes the matching
verification-token row and returns it; when no matching row exists — in
particular on a second call with the same (identifier, token) pair after a
first successful call — it returns `none` with the table unchanged, rather
than an error. -/
theorem useVerificationToken_fetch_delete_then_none
    (tokens : List VerificationToken) (identifier token : String)
    (v : VerificationToken)
    (h : tokens.find? (vtMatches identifier token) = some v) :
    (useVerificationToken tokens identifier token).1 = some v ∧
    (useVerificationToken
        (useVerificationToken tokens identifier token).2 identifier token) =
      (none, (useVerificationToken tokens identifier token).2) ∧
    (∀ ts : List VerificationToken,
      ts.find? (vtMatches identifier token) = none →
      useVerificationToken ts identifier token = (none, ts)) := by
  refine ⟨?_, ?_, ?_⟩
  · simp [useVerificationToken, h]
  · have hsnd : (useVerificationToken tokens identifier token).2 =
        tokens.filter (fun x => !(vtMatches identifier token x)) := by
      simp [useVerificationToken, h]
    rw [hsnd, useVerificationToken, find?_filter_not_eq_none]
  · intro ts hts
    simp [useVerificationToken, hts]

/-- C2 witness: a concrete single-row table; the first call returns the row,
the second call observes absence without an error. -/
theorem useVerificationToken_fetch_delete_then_none_witness :
    (useVerificationToken [⟨"a@b.c", "123456", 10⟩] "a@b.c" "123456").1 =
      some ⟨"a@b.c", "123456", 10⟩ ∧
    (useVerificationToken
        (useVerificationToken [⟨"a@b.c", "123456", 10⟩] "a@b.c" "123456").2
        "a@b.c" "123456") =
      (none,
       (useVerificationToken [⟨"a@b.c", "123456", 10⟩] "a@b.c" "123456").2) ∧
    (∀ ts : List VerificationToken,
      ts.find? (vtMatches "a@b.c" "123456") = none →
      useVerificationToken ts "a@b.c" "123456" = (none, ts)) :=
  useVerificationToken_fetch_delete_then_none
    [⟨"a@b.c", "123456", 10⟩] "a@b.c" "123456" ⟨"a@b.c", "123456", 10⟩
    (by decide)

/-- C1 counterexample: with the signup-disable switch active, no configured
admin allow-list (so the email is not on the allow-list) and no pending
invitation of either kind, `createUser` does not fail with the
signup-disabled error — it succeeds and creates a user record, because the
source guard `env.ADMIN_EMAIL?.every(...)` is falsy when `ADMIN_EMAIL` is
absent. -/
theorem createUser_signupDisabled_counterexample :
    (⟨true, none, false, none⟩ : Env).DISABLE_SIGNUP = true ∧
    onAdminAllowList none "user@example.com" = false ∧
    getNewUserInvitations ⟨[], [], [], [], [], []⟩ "user@example.com" =
      ([], []) ∧
    createUser ⟨true, none, false, none⟩ "u1" "w1" ⟨[], [], [], [], [], []⟩
        ⟨none, "user@example.com", none⟩ =
      Except.ok ⟨⟨"u1", "user@example.com", none, []⟩,
        ⟨[⟨"u1", "user@example.com", none, []⟩], [], [],
         [⟨"w1", "My workspace", "DEFAULT"⟩],
         [⟨"u1", "w1", WorkspaceRole.ADMIN⟩], []⟩,
        [.workspaceCreated "w1" "u1", .userCreated "u1"]⟩ ∧
    (createUserDB ⟨true, none, false, none⟩ "u1" "w1" ⟨[], [], [], [], [], []⟩
        ⟨none, "user@example.com", none⟩).users.length = 1 :=
  ⟨rfl, rfl, rfl, rfl, rfl⟩

/-- C1 amended: for every `createUser` call with a non-empty email, if the
signup-disable switch is active, an admin allow-list is configured and does
not contain the email, and the invitation resolver returns no pending direct
and no pending workspace invitations for the email, then `createUser` fails
with the signup-disabled error and the store is unchanged (no user record is
created). -/
theorem createUser_signupDisabled_amended
    (env : Env) (genId genWorkspaceId : String) (db : DB)
    (data : AdapterUserInput) (allow : List String)
    (h1 : env.DISABLE_SIGNUP = true)
    (h2 : env.ADMIN_EMAIL = some allow)
    (h3 : data.email ∉ allow)
    (h4 : data.email ≠ "")
    (h5 : getNewUserInvitations db data.email = ([], [])) :
    createUser env genId genWorkspaceId db data =
      Except.error CreateUserError.signupDisabled ∧
    createUserDB env genId genWorkspaceId db data = db := by
  have hall : adminEmailEveryNe env.ADMIN_EMAIL data.email = true := by
    rw [h2]
    simp only [adminEmailEveryNe, List.all_eq_true]
    intro a ha
    simp only [decide_eq_true_eq]
    intro hEq
    exact h3 (hEq ▸ ha)
  have hcu : createUser env genId genWorkspaceId db data =
      Except.error CreateUserError.signupDisabled := by
    rw [createUser]
    simp [h1, h4, h5, hall]
  exact ⟨hcu, by simp [createUserDB, hcu]⟩

/-- C1 witness: a concrete configuration with an allow-list not containing
the email and an empty store; `createUser` rejects and leaves the store
unchanged. -/
theorem createUser_signupDisabled_amended_witness :
    createUser ⟨true, some ["admin@example.com"], false, none⟩ "u1" "w1"
        ⟨[], [], [], [], [], []⟩ ⟨none, "user@example.com", none⟩ =
      Except.error CreateUserError.signupDisabled ∧
    createUserDB ⟨true, some ["admin@example.com"], false, none⟩ "u1" "w1"
        ⟨[], [], [], [], [], []⟩ ⟨none, "user@example.com", none⟩ =
      ⟨[], [], [], [], [], []⟩ :=
  createUser_signupDisabled_amended ⟨true, some ["admin@example.com"], false,
    none⟩ "u1" "w1" ⟨[], [], [], [], [], []⟩ ⟨none, "user@example.com", none⟩
    ["admin@example.com"] rfl rfl (by decide) (by decide) rfl

/-- C3: for every successful `createUser` call on an email with at least one
pending workspace invitation, no personal workspace is created (the
workspace table is unchanged and no `Workspace created` event is tracked)
and the user is instead joined into exactly the invited workspaces, one
membership per invitation — so the fresh-personal-workspace path and the
invited-workspace path are never taken simultaneously. -/
theorem createUser_workspaceInvitations_join
    (env : Env) (genId genWorkspaceId : String) (db : DB)
    (data : AdapterUserInput) (r : CreateUserOk)
    (hok : createUser env genId genWorkspaceId db data = Except.ok r)
    (hw : 0 < (getNewUserInvitations db data.email).2.length) :
    r.db.workspaces = db.workspaces ∧
    r.db.memberships = db.memberships ++
      (getNewUserInvitations db data.email).2.map
        (fun i => ⟨r.user.id, i.workspaceId, i.role⟩) ∧
    (∀ e, e ∈ r.events → ∀ wId uId, e ≠ .workspaceCreated wId uId) := by
  have he : ¬(data.email = "") := by
    intro h
    rw [createUser, if_pos h] at hok
    exact Except.noConfusion hok
  have hlen : (getNewUserInvitations db data.email).2.length ≠ 0 :=
    Nat.pos_iff_ne_zero.mp hw
  rw [createUser, if_neg he] at hok
  simp only [hlen, hw, decide_False, Bool.and_false, Bool.false_eq_true,
    if_false, if_true] at hok
  rw [Except.ok.injEq] at hok
  subst hok
  refine ⟨?_, ?_, ?_⟩
  · simp [joinWorkspaces]
    split <;> simp [convertInvitationsToCollaborations]
  · simp [joinWorkspaces]
    split <;> simp [convertInvitationsToCollaborations]
  · intro e hmem wId uId
    simp at hmem
    simp [hmem]

/-- Concrete store for the C3 witness: one pending workspace invitation and
nothing else. -/
def dbC3 : DB :=
  ⟨[], [], [⟨"u@x.io", "wsp1", WorkspaceRole.MEMBER⟩], [], [], []⟩

/-- The concrete successful `createUser` outcome on `dbC3`: no workspace
row added, one invited membership, no workspace telemetry. -/
def okC3 : CreateUserOk :=
  ⟨⟨"u1", "u@x.io", none, []⟩,
   ⟨[⟨"u1", "u@x.io", none, []⟩], [], [], [],
    [⟨"u1", "wsp1", WorkspaceRole.MEMBER⟩], []⟩,
   [.userCreated "u1"]⟩

/-- C3 witness: the invited-workspace path on a concrete store. -/
theorem createUser_workspaceInvitations_join_witness :
    okC3.db.workspaces = dbC3.workspaces ∧
    okC3.db.memberships = dbC3.memberships ++
      (getNewUserInvitations dbC3 "u@x.io").2.map
        (fun i => ⟨okC3.user.id, i.workspaceId, i.role⟩) ∧
    (∀ e, e ∈ okC3.events → ∀ wId uId, e ≠ .workspaceCreated wId uId) :=
  createUser_workspaceInvitations_join ⟨false, none, false, none⟩ "u1" "w1"
    dbC3 ⟨none, "u@x.io", none⟩ okC3 rfl (by decide)

/-- C4: a `POST` on `/api/auth/signin/email` whose ip exceeded the limit is
tagged rate-limited by the entry handler, and the sign-in decision procedure
converts the tag into the thrown `rate-limited` error — which is never a
success and differs from the `sign-up-disabled` error message. -/
theorem authHandler_rateLimited_tag_and_error
    (e2eTest : Bool) (limitSuccess : String → Bool) (req : AuthRequest)
    (u ip : String)
    (h1 : req.method = "POST")
    (h2 : req.url = some u)
    (h3 : urlStartsWith u "/api/auth/signin/email" = true)
    (h4 : req.ip = some ip)
    (h5 : limitSuccess ip = false) :
    authHandler e2eTest true limitSuccess req =
      .nextAuth (some .rateLimited) ∧
    (∀ (env : Env) (db : DB) (dd ug : List String)
        (acc : Option SignInAccount) (user : SignInUser),
      signIn env db dd ug (some .rateLimited) acc user =
        Except.error "rate-limited") ∧
    (∀ (env : Env) (db : DB) (dd ug : List String)
        (acc : Option SignInAccount) (user : SignInUser)
        (b : Bool) (ev : List TelemetryEvent),
      signIn env db dd ug (some .rateLimited) acc user ≠
        Except.ok (b, ev)) ∧
    ("rate-limited" : String) ≠ "sign-up-disabled" := by
  refine ⟨?_, ?_, ?_, by decide⟩
  · rw [authHandler]
    simp [h1, h2, h3, h4, h5]
  · intro env db dd ug acc user
    rfl
  · intro env db dd ug acc user b ev h
    exact Except.noConfusion h

/-- C4 witness: a concrete rate-limited `POST /api/auth/signin/email`. -/
theorem authHandler_rateLimited_tag_and_error_witness :
    authHandler false true (fun _ => false)
        ⟨"POST", some "/api/auth/signin/email", some "1.2.3.4"⟩ =
      .nextAuth (some .rateLimited) ∧
    (∀ (env : Env) (db : DB) (dd ug : List String)
        (acc : Option SignInAccount) (user : SignInUser),
      signIn env db dd ug (some .rateLimited) acc user =
        Except.error "rate-limited") ∧
    (∀ (env : Env) (db : DB) (dd ug : List String)
        (acc : Option SignInAccount) (user : SignInUser)
        (b : Bool) (ev : List TelemetryEvent),
      signIn env db dd ug (some .rateLimited) acc user ≠
        Except.ok (b, ev)) ∧
    ("rate-limited" : String) ≠ "sign-up-disabled" :=
  authHandler_rateLimited_tag_and_error false (fun _ => false)
    ⟨"POST", some "/api/auth/signin/email", some "1.2.3.4"⟩
    "/api/auth/signin/email" "1.2.3.4" rfl rfl (by decide) rfl rfl

/-- C5 counterexample: a returning user (prior-creation marker present)
signing in through the gitlab provider with a configured and satisfied
required-group set is allowed, but no `User logged in` telemetry event is
tracked — the group branch returns before the telemetry line. -/
theorem signIn_loggedIn_telemetry_counterexample :
    (⟨"u9", some "x@y.z", some 5⟩ : SignInUser).createdAt.isSome = true ∧
    getRequiredGroups ⟨false, none, false, some ["b"]⟩ "gitlab" = ["b"] ∧
    checkHasGroups ["b"] ["b"] = true ∧
    signIn ⟨false, none, false, some ["b"]⟩ ⟨[], [], [], [], [], []⟩ [] ["b"]
        none (some ⟨"gitlab"⟩) ⟨"u9", some "x@y.z", some 5⟩ =
      Except.ok (true, []) :=
  ⟨rfl, rfl, rfl, rfl⟩

/-- C5 amended: for every sign-in attempt by a user who is not new that
passes the earlier checks, when the provider has no configured
required-group set a `User logged in` telemetry event is tracked and the
attempt is allowed; when a required-group set is configured the attempt is
decided by the group check alone and no telemetry event is tracked. -/
theorem signIn_loggedIn_telemetry_amended
    (env : Env) (db : DB) (dd ug : List String) (acc : SignInAccount)
    (user : SignInUser) (t : Nat)
    (hc : user.createdAt = some t) :
    (getRequiredGroups env acc.provider = [] →
      signIn env db dd ug none (some acc) user =
        Except.ok (true, [.userLoggedIn user.id])) ∧
    (getRequiredGroups env acc.provider ≠ [] →
      signIn env db dd ug none (some acc) user =
        Except.ok (checkHasGroups ug (getRequiredGroups env acc.provider),
          [])) := by
  constructor
  · intro hg
    rw [signIn]
    simp [hc, signInAfterGates, hg]
  · intro hg
    have hlen : 0 < (getRequiredGroups env acc.provider).length :=
      List.length_pos.mpr hg
    rw [signIn]
    simp [hc, signInAfterGates, hlen]

/-- C5 witness: a returning user through a provider with no required groups
gets the telemetry event; through gitlab with a satisfied required-group set
the attempt is allowed with no event. -/
theorem signIn_loggedIn_telemetry_amended_witness :
    signIn ⟨false, none, false, none⟩ ⟨[], [], [], [], [], []⟩ [] [] none
        (some ⟨"github"⟩) ⟨"u9", some "x@y.z", some 5⟩ =
      Except.ok (true, [.userLoggedIn "u9"]) ∧
    signIn ⟨false, none, false, some ["g"]⟩ ⟨[], [], [], [], [], []⟩ [] ["g"]
        none (some ⟨"gitlab"⟩) ⟨"u9", some "x@y.z", some 5⟩ =
      Except.ok (true, []) := by
  constructor
  · exact (signIn_loggedIn_telemetry_amended ⟨false, none, false, none⟩
      ⟨[], [], [], [], [], []⟩ [] [] ⟨"github"⟩
      ⟨"u9", some "x@y.z", some 5⟩ 5 rfl).1 rfl
  · have h := (signIn_loggedIn_telemetry_amended ⟨false, none, false,
      some ["g"]⟩ ⟨[], [], [], [], [], []⟩ [] ["g"] ⟨"gitlab"⟩
      ⟨"u9", some "x@y.z", some 5⟩ 5 rfl).2 (by decide)
    simpa using h

/-- C6 counterexample: a PATCH whose body carries `company` equal to the
already-stored company changes no field at all — the updated record equals
the stored one — yet a `User updated` telemetry event is tracked, so the
event is not emitted "if and only if at least one tracked field changed". -/
theorem userUpdated_iff_changed_counterexample :
    applyPatch ⟨"u1", "e@x.io", some "N", none, some "Acme", none, [], none,
        none⟩ { company := some (some "Acme") } =
      ⟨"u1", "e@x.io", some "N", none, some "Acme", none, [], none, none⟩ ∧
    userIdHandler (some "u1") "PATCH"
        ⟨"u1", "e@x.io", some "N", none, some "Acme", none, [], none, none⟩
        { company := some (some "Acme") } =
      (.ok ⟨"u1", "e@x.io", some "N", none, some "Acme", none, [], none,
          none⟩,
       [.userUpdated "u1"]) :=
  ⟨rfl, rfl⟩

/-- C6 amended: a `User updated` telemetry event is emitted if and only if
at least one of onboarding categories, referral source, company or display
name is supplied in the PATCH body with a truthy value (any array for
onboarding categories, a non-null non-empty string for the others); at most
one event is emitted; a PATCH carrying only an unrelated field (image)
emits none; a PATCH carrying a non-empty company emits exactly one. -/
theorem userUpdated_iff_truthy_field_amended
    (uid method : String) (stored : UserRecord) (data : UserPatch)
    (hm : method = "PATCH") :
    ((userIdHandler (some uid) method stored data).2 ≠ [] ↔
      userUpdatedCondition data = true) ∧
    (userIdHandler (some uid) method stored data).2.length ≤ 1 ∧
    (∀ img : Option (Option String),
      userIdHandler (some uid) method stored { image := img } =
        (.ok (applyPatch stored { image := img }), [])) ∧
    (∀ c : String, c ≠ "" → data.company = some (some c) →
      (userIdHandler (some uid) method stored data).2 =
        [.userUpdated uid]) := by
  subst hm
  refine ⟨?_, ?_, ?_, ?_⟩
  · rw [userIdHandler]
    by_cases h : userUpdatedCondition data = true
    · simp [h]
    · simp [h]
  · rw [userIdHandler]
    by_cases h : userUpdatedCondition data = true
    · simp [h]
    · simp [h]
  · intro img
    rw [userIdHandler]
    simp [userUpdatedCondition, jsTruthyList, jsTruthyStr]
  · intro c hc hcomp
    rw [userIdHandler]
    have : userUpdatedCondition data = true := by
      simp [userUpdatedCondition, jsTruthyStr, hcomp, hc]
    simp [this]

/-- C6 witness: a PATCH with a non-empty company on a concrete record emits
exactly one event, and the emitted/condition equivalence holds there. -/
theorem userUpdated_iff_truthy_field_amended_witness :
    ((userIdHandler (some "u1") "PATCH"
        ⟨"u1", "e@x.io", none, none, none, none, [], none, none⟩
        { company := some (some "Acme") }).2 ≠ [] ↔
      userUpdatedCondition { company := some (some "Acme") } = true) ∧
    (userIdHandler (some "u1") "PATCH"
        ⟨"u1", "e@x.io", none, none, none, none, [], none, none⟩
        { company := some (some "Acme") }).2 = [.userUpdated "u1"] ∧
    userIdHandler (some "u1") "PATCH"
        ⟨"u1", "e@x.io", none, none, none, none, [], none, none⟩
        { image := some (some "pic.png") } =
      (.ok (applyPatch ⟨"u1", "e@x.io", none, none, none, none, [], none,
          none⟩ { image := some (some "pic.png") }), []) := by
  refine ⟨?_, ?_, ?_⟩
  · exact (userUpdated_iff_truthy_field_amended "u1" "PATCH"
      ⟨"u1", "e@x.io", none, none, none, none, [], none, none⟩
      { company := some (some "Acme") } rfl).1
  · exact (userUpdated_iff_truthy_field_amended "u1" "PATCH"
      ⟨"u1", "e@x.io", none, none, none, none, [], none, none⟩
      { company := some (some "Acme") } rfl).2.2.2 "Acme" (by decide) rfl
  · exact (userUpdated_iff_truthy_field_amended "u1" "PATCH"
      ⟨"u1", "e@x.io", none, none, none, none, [], none, none⟩
      { company := some (some "Acme") } rfl).2.2.1 (some (some "pic.png"))

/-- C7: group authorization is exactly non-empty case-sensitive intersection
of the fetched groups with the required groups — the two concrete vectors of
the spec included — and with no configured required-group list the sign-in
decision does not depend on the fetched groups at all (the stage imposes no
restriction). -/
theorem checkHasGroups_intersection_spec
    (u r : List String) (env : Env) (db : DB) (dd ug1 ug2 : List String)
    (acc : SignInAccount) (user : SignInUser)
    (restricted : Option Restricted)
    (hnone : getRequiredGroups env acc.provider = []) :
    (checkHasGroups u r = true ↔ ∃ g, g ∈ u ∧ g ∈ r) ∧
    checkHasGroups ["a", "b"] ["b", "c"] = true ∧
    checkHasGroups ["x"] ["b", "c"] = false ∧
    signIn env db dd ug1 restricted (some acc) user =
      signIn env db dd ug2 restricted (some acc) user := by
  refine ⟨?_, by decide, by decide, ?_⟩
  · simp [checkHasGroups, List.any_eq_true]
  · rw [signIn, signIn]
    simp [signInAfterGates, hnone]

/-- C7 witness: the intersection property and group-independence at concrete
inputs (a provider with no configured required groups). -/
theorem checkHasGroups_intersection_spec_witness :
    (checkHasGroups ["a", "b"] ["b", "c"] = true ↔
      ∃ g, g ∈ (["a", "b"] : List String) ∧ g ∈ (["b", "c"] : List String)) ∧
    checkHasGroups ["a", "b"] ["b", "c"] = true ∧
    checkHasGroups ["x"] ["b", "c"] = false ∧
    signIn ⟨false, none, false, none⟩ ⟨[], [], [], [], [], []⟩ [] ["g1"] none
        (some ⟨"github"⟩) ⟨"u1", some "e@x.io", some 3⟩ =
      signIn ⟨false, none, false, none⟩ ⟨[], [], [], [], [], []⟩ [] ["g2"]
        none (some ⟨"github"⟩) ⟨"u1", some "e@x.io", some 3⟩ :=
  checkHasGroups_intersection_spec ["a", "b"] ["b", "c"]
    ⟨false, none, false, none⟩ ⟨[], [], [], [], [], []⟩ [] ["g1"] ["g2"]
    ⟨"github"⟩ ⟨"u1", some "e@x.io", some 3⟩ none rfl

/-- C8: the profile endpoint answers 401 to every unauthenticated request
(whatever the method) and 405 to every authenticated request whose method is
not PATCH. -/
theorem userIdHandler_auth_and_method
    (method : String) (stored : UserRecord) (data : UserPatch) (uid : String)
    (hm : method ≠ "PATCH") :
    (∀ m : String,
      userIdHandler none m stored data = (.notAuthenticated, [])) ∧
    userIdHandler (some uid) method stored data = (.methodNotAllowed, []) := by
  refine ⟨fun m => rfl, ?_⟩
  rw [userIdHandler]
  simp [hm]

/-- C8 witness: a concrete GET request — 401 unauthenticated, 405
authenticated. -/
theorem userIdHandler_auth_and_method_witness :
    (∀ m : String,
      userIdHandler none m
          ⟨"u1", "e@x.io", none, none, none, none, [], none, none⟩ {} =
        (.notAuthenticated, [])) ∧
    userIdHandler (some "u1") "GET"
        ⟨"u1", "e@x.io", none, none, none, none, [], none, none⟩ {} =
      (.methodNotAllowed, []) :=
  userIdHandler_auth_and_method "GET"
    ⟨"u1", "e@x.io", none, none, none, none, [], none, none⟩ {} "u1"
    (by decide)

/-- C9: with an account payload present, a new user payload (no
prior-creation marker) and a falsy email, both the disposable-email check
and the signup-disabled check are skipped, so when the provider has no
configured required-group set the attempt is allowed with no telemetry —
whatever the values of the signup-disable and disposable-rejection
switches. -/
theorem signIn_newUser_noEmail_allowed
    (env : Env) (db : DB) (dd ug : List String) (acc : SignInAccount)
    (user : SignInUser)
    (h1 : user.createdAt = none)
    (h2 : strTruthy user.email = false)
    (h3 : getRequiredGroups env acc.provider = []) :
    signIn env db dd ug none (some acc) user = Except.ok (true, []) := by
  rw [signIn]
  simp [h1, h2, h3, signInAfterGates]

/-- C9 witness: signup disabled and disposable rejection both enabled, no
required groups for the provider, a brand-new user payload with no email —
the attempt is allowed. -/
theorem signIn_newUser_noEmail_allowed_witness :
    signIn ⟨true, none, true, none⟩ ⟨[], [], [], [], [], []⟩
        ["throwaway.com"] [] none (some ⟨"github"⟩) ⟨"u1", none, none⟩ =
      Except.ok (true, []) :=
  signIn_newUser_noEmail_allowed ⟨true, none, true, none⟩
    ⟨[], [], [], [], [], []⟩ ["throwaway.com"] [] ⟨"github"⟩
    ⟨"u1", none, none⟩ rfl rfl rfl

/-- C10: a PATCH body that sets `displayedInAppNotifications` or
`groupTitlesAutoGeneration` to an explicit `null` leaves those stored
columns unchanged (the `?? undefined` coercion turns the `null` into an
absent value before the store update), while every other field supplied in
the body — `name`, `image`, `company`, `referral`, `onboardingCategories` —
is merged into the record exactly as given; the handler responds with the
updated record. -/
theorem applyPatch_null_coercion_frame
    (uid : String) (stored : UserRecord) (data : UserPatch) :
    (data.displayedInAppNotifications = some none →
      (applyPatch stored data).displayedInAppNotifications =
        stored.displayedInAppNotifications) ∧
    (data.groupTitlesAutoGeneration = some none →
      (applyPatch stored data).groupTitlesAutoGeneration =
        stored.groupTitlesAutoGeneration) ∧
    (∀ v, data.name = some v → (applyPatch stored data).name = v) ∧
    (∀ v, data.image = some v → (applyPatch stored data).image = v) ∧
    (∀ v, data.company = some v → (applyPatch stored data).company = v) ∧
    (∀ v, data.referral = some v → (applyPatch stored data).referral = v) ∧
    (∀ l, data.onboardingCategories = some l →
      (applyPatch stored data).onboardingCategories = l) ∧
    (userIdHandler (some uid) "PATCH" stored data).1 =
      .ok (applyPatch stored data) := by
  refine ⟨?_, ?_, ?_, ?_, ?_, ?_, ?_, rfl⟩
  · intro h1; simp [applyPatch, h1, nullToUndefined, applyField]
  · intro h2; simp [applyPatch, h2, nullToUndefined, applyField]
  · intro v hv; simp [applyPatch, hv, applyField]
  · intro v hv; simp [applyPatch, hv, applyField]
  · intro v hv; simp [applyPatch, hv, applyField]
  · intro v hv; simp [applyPatch, hv, applyField]
  · intro l hl; simp [applyPatch, hl, applyField]

/-- C10 witness: two concrete bodies, each setting exactly one of the two
JSON columns to `null` — in the first, `displayedInAppNotifications` keeps
its stored value while the supplied name is set; in the second,
`groupTitlesAutoGeneration` keeps its stored value while the supplied `null`
company clears the column. -/
theorem applyPatch_null_coercion_frame_witness :
    (applyPatch ⟨"u1", "e@x.io", some "Old", none, some "Acme", none, [],
        some "notif", some "gen"⟩
      { name := some (some "New"),
        displayedInAppNotifications := some none }).displayedInAppNotifications =
      some "notif" ∧
    (applyPatch ⟨"u1", "e@x.io", some "Old", none, some "Acme", none, [],
        some "notif", some "gen"⟩
      { name := some (some "New"),
        displayedInAppNotifications := some none }).name = some "New" ∧
    (applyPatch ⟨"u1", "e@x.io", some "Old", none, some "Acme", none, [],
        some "notif", some "gen"⟩
      { company := some none,
        groupTitlesAutoGeneration := some none }).groupTitlesAutoGeneration =
      some "gen" ∧
    (applyPatch ⟨"u1", "e@x.io", some "Old", none, some "Acme", none, [],
        some "notif", some "gen"⟩
      { company := some none,
        groupTitlesAutoGeneration := some none }).company = none := by
  have hA := applyPatch_null_coercion_frame "u1"
    ⟨"u1", "e@x.io", some "Old", none, some "Acme", none, [], some "notif",
      some "gen"⟩
    { name := some (some "New"), displayedInAppNotifications := some none }
  have hB := applyPatch_null_coercion_frame "u1"
    ⟨"u1", "e@x.io", some "Old", none, some "Acme", none, [], some "notif",
      some "gen"⟩
    { company := some none, groupTitlesAutoGeneration := some none }
  exact ⟨hA.1 rfl, hA.2.2.1 (some "New") rfl, hB.2.1 rfl,
    hB.2.2.2.2.1 none rfl⟩

end Typebot
